import Mathlib

/- Verification of video_splitter/splitter.py: the timestamp parser
   (parse_time), the Section model with its derived offsets, and the
   configuration builder (load_config), together with the part of
   extract_section that decides the duration flag.

   Numbers: Python ints and floats are modelled as exact rationals; every
   value occurring in the program is produced by decimal literals and by
   +, -, *, /, //, % on them, so the rational model is exact.  Strings are
   modelled as lists of characters; the two regular expressions of the
   source are implemented as deterministic matchers that are equivalent to
   the regexes (a justification accompanies each one). -/

namespace VideoSplitter

/- Python floor division a // b on numbers is the floor of the exact
   quotient, and a % b is a - b * (a // b).  ratFloor computes the floor
   of a rational from its reduced numerator and denominator. -/

def ratFloor (q : ℚ) : ℤ := q.num.fdiv q.den

theorem ratFloor_eq_floor (q : ℚ) : ratFloor q = ⌊q⌋ := by
  rw [Rat.floor_def, ratFloor, Int.fdiv_eq_ediv _ (by positivity)]

def pyFloorDiv (a b : ℚ) : ℚ := (ratFloor (a / b) : ℚ)

def pyMod (a b : ℚ) : ℚ := a - b * pyFloorDiv a b

theorem pyFloorDiv_eq (a b : ℚ) : pyFloorDiv a b = (⌊a / b⌋ : ℚ) := by
  rw [pyFloorDiv, ratFloor_eq_floor]

theorem pyMod_add_floorDiv (a b : ℚ) : b * pyFloorDiv a b + pyMod a b = a := by
  rw [pyMod]; ring

theorem pyMod_nonneg (a b : ℚ) (hb : 0 < b) : 0 ≤ pyMod a b := by
  rw [pyMod, pyFloorDiv_eq, sub_nonneg]
  calc b * (⌊a / b⌋ : ℚ) ≤ b * (a / b) :=
        mul_le_mul_of_nonneg_left (Int.floor_le _) hb.le
    _ = a := by field_simp

theorem pyMod_lt (a b : ℚ) (hb : 0 < b) : pyMod a b < b := by
  rw [pyMod, pyFloorDiv_eq, sub_lt_iff_lt_add]
  have h := Int.lt_floor_add_one (a / b)
  calc a = b * (a / b) := by field_simp
    _ < b * ((⌊a / b⌋ : ℚ) + 1) := by
        exact mul_lt_mul_of_pos_left h hb
    _ = b + b * (⌊a / b⌋ : ℚ) := by ring

theorem pyFloorDiv_nonneg (a b : ℚ) (ha : 0 ≤ a) (hb : 0 < b) :
    0 ≤ pyFloorDiv a b := by
  rw [pyFloorDiv_eq]
  exact_mod_cast Int.floor_nonneg.mpr (div_nonneg ha hb.le)

/- Timestamp is the NamedTuple (h, m, s) of the source.  The source keeps
   Python ints in h and m and, depending on the path taken, an int or a
   float in s; Python tuple equality compares the fields numerically, which
   the rational fields reproduce. -/
structure Timestamp where
  h : ℚ
  m : ℚ
  s : ℚ
deriving DecidableEq, Repr

/- Section is the dataclass of the source with fields name, start and end,
   the end field annotated Timestamp | None.  The field is called endv here
   because end is reserved in Lean. -/
structure Section where
  name : String
  start : Timestamp
  endv : Option Timestamp
deriving DecidableEq, Repr

def Section.start_seconds (sec : Section) : ℚ :=
  sec.start.h * 3600 + sec.start.m * 60 + sec.start.s

def Section.duration (sec : Section) : Option ℚ :=
  match sec.endv with
  | none => none
  | some e => some (e.h * 3600 + e.m * 60 + e.s - sec.start_seconds)

/- Values a yaml.safe_load document can hand to load_config. -/
inductive PyVal where
  | pstr (s : String)
  | pint (n : ℤ)
  | pfloat (q : ℚ)
  | pbool (b : Bool)
  | pnone
  | pdict (entries : List (String × PyVal))

/- Python exceptions raised by the modelled code paths. -/
inductive PyErr where
  | typeError (msg : String)
  | valueError (msg : String)
deriving DecidableEq, Repr

/- The whitespace characters stripped by float() and matched by the ASCII
   reading of the regex class backslash-s: space, tab, newline, carriage
   return, vertical tab, form feed.  (Python also accepts some Unicode
   spaces and digits; no input in this development uses them.) -/
def isSpaceChar (c : Char) : Bool :=
  c = ' ' || c = '\t' || c = '\n' || c = '\r' || c = '\x0b' || c = '\x0c'

def natOfDigits (ds : List Char) : ℕ :=
  ds.foldl (fun a c => 10 * a + (c.toNat - 48)) 0

def stripChars (cs : List Char) : List Char :=
  ((cs.dropWhile isSpaceChar).reverse.dropWhile isSpaceChar).reverse

/- The parts of a Python float literal: sign, integer-part digits,
   fractional-part digits, exponent sign and exponent digits. -/
structure FloatLit where
  neg : Bool
  ip : List Char
  fp : List Char
  expNeg : Bool
  expDigits : List Char
deriving DecidableEq, Repr

def floatLitVal (l : FloatLit) : ℚ :=
  let mant : ℚ := (natOfDigits l.ip : ℚ) + (natOfDigits l.fp : ℚ) / (10 : ℚ) ^ l.fp.length
  let scaled : ℚ :=
    if l.expNeg then mant / (10 : ℚ) ^ natOfDigits l.expDigits
    else mant * (10 : ℚ) ^ natOfDigits l.expDigits
  if l.neg then -scaled else scaled

/- Optional exponent at the end of a float literal: nothing at all, or
   e / E followed by an optional sign and at least one digit consuming the
   whole remainder of the string. -/
def parseExpPart : List Char → Option (Bool × List Char)
  | [] => some (false, [])
  | c :: r =>
    if c = 'e' || c = 'E' then
      let (en, r2) : Bool × List Char :=
        match r with
        | '+' :: t => (false, t)
        | '-' :: t => (true, t)
        | _ => (false, r)
      let (ds, r3) := r2.span Char.isDigit
      if ds.isEmpty || !r3.isEmpty then none else some (en, ds)
    else none

def parseFloatLit (cs : List Char) : Option FloatLit :=
  let (neg, cs1) : Bool × List Char :=
    match cs with
    | '+' :: t => (false, t)
    | '-' :: t => (true, t)
    | _ => (false, cs)
  let (ip, r1) := cs1.span Char.isDigit
  match r1 with
  | '.' :: r2 =>
    let (fp, r3) := r2.span Char.isDigit
    if ip.isEmpty && fp.isEmpty then none
    else
      match parseExpPart r3 with
      | some (en, eds) => some ⟨neg, ip, fp, en, eds⟩
      | none => none
  | _ =>
    if ip.isEmpty then none
    else
      match parseExpPart r1 with
      | some (en, eds) => some ⟨neg, ip, [], en, eds⟩
      | none => none

/- float(s) for a string s: strip whitespace, then an optional sign and a
   decimal literal with optional fraction and exponent, consuming the whole
   string; none models the ValueError that parse_time catches.  Non-finite
   literals (inf, nan) and underscores between digits are not modelled; no
   input in this development uses them. -/
def pyFloatOfString (s : String) : Option ℚ :=
  (parseFloatLit (stripChars s.data)).map floatLitVal

/- re.match of the colon pattern of the source,
   (?P<hours>backslash-d+)?:(?P<minutes>backslash-d+):(?P<seconds>backslash-d+).
   Only the hours DIGITS are optional; both colons are mandatory, and each
   group is digits only.  re.match anchors at the start and leaves trailing
   characters unmatched.  Maximal munch is equivalent to the regex with
   backtracking here: shortening a digit run only puts a digit where a
   colon is required, and each group is digits-only so its value is the
   full run. -/
def colonMatch (cs : List Char) : Option (Option ℕ × ℕ × ℕ) :=
  let (d1, r1) := cs.span Char.isDigit
  match r1 with
  | ':' :: r2 =>
    let (d2, r3) := r2.span Char.isDigit
    if d2.isEmpty then none
    else
      match r3 with
      | ':' :: r4 =>
        let (d3, _) := r4.span Char.isDigit
        if d3.isEmpty then none
        else some (if d1.isEmpty then none else some (natOfDigits d1),
                   natOfDigits d2, natOfDigits d3)
      | _ => none
  | _ => none

/- One optional component of the letter pattern,
   ((?P<g>backslash-d+)[xX],?backslash-s*)? for a letter x: a digit run
   followed by the letter in either case, then an optional comma and any
   whitespace.  If the digits or the letter are not there the group is
   skipped and the position does not move.  Greedy matching is equivalent
   to the regex: digits, the letter, the comma and whitespace are pairwise
   distinguishable, and the enclosing match never fails. -/
def letterComponent (lo hi : Char) (cs : List Char) : Option ℕ × List Char :=
  let (d, r) := cs.span Char.isDigit
  if d.isEmpty then (none, cs)
  else
    match r with
    | c :: r2 =>
      if c = lo || c = hi then
        let r3 :=
          match r2 with
          | ',' :: t => t
          | _ => r2
        (some (natOfDigits d), r3.dropWhile isSpaceChar)
      else (none, cs)
    | [] => (none, cs)

/- re.match of the letter pattern of the source: the three components in
   order, hours then minutes then seconds, every one of them optional.
   Because every group is optional this pattern matches EVERY string (with
   a possibly empty match), so the match object is never None. -/
def letterMatch (cs : List Char) : Option ℕ × Option ℕ × Option ℕ :=
  let (hv, r1) := letterComponent 'h' 'H' cs
  let (mv, r2) := letterComponent 'm' 'M' r1
  let (sv, _) := letterComponent 's' 'S' r2
  (hv, mv, sv)

/- Shape 1 of parse_time: a number t is a count of minutes.
   h = int(t // 60); m = int(t % 60); s = (t % 1) * 60.
   t // 60 is already an integer and t % 60 and t % 1 lie in [0, 60) and
   [0, 1), so the int() truncations agree with the floor. -/
def numericShape (t : ℚ) : Timestamp :=
  ⟨(ratFloor (t / 60) : ℚ), (ratFloor (pyMod t 60) : ℚ), pyMod t 1 * 60⟩

/- Carry normalization at the end of the string branches of parse_time:
   if s >= 60 then m += s // 60 and s %= 60; then if m >= 60 then
   h += m // 60 and m %= 60. -/
def normalizeTs (h m s : ℚ) : Timestamp :=
  let m1 := if s ≥ 60 then m + pyFloorDiv s 60 else m
  let s1 := if s ≥ 60 then pyMod s 60 else s
  let h1 := if m1 ≥ 60 then h + pyFloorDiv m1 60 else h
  let m2 := if m1 ≥ 60 then pyMod m1 60 else m1
  ⟨h1, m2, s1⟩

/- parse_time: first t = float(t) is attempted, a ValueError being caught
   (a TypeError from a non-string non-number argument is not caught).  A
   number is decomposed as shape 1 and returned without normalization.
   Otherwise the string is tried against the colon pattern and then the
   letter pattern; the letter pattern matches every string, so the source
   assert (match is not None) can never fire and an unrecognized string
   yields Timestamp(0, 0, 0). -/
def parse_time (v : PyVal) : Except PyErr Timestamp :=
  match v with
  | .pfloat q => .ok (numericShape q)
  | .pint n => .ok (numericShape (n : ℚ))
  | .pbool b => .ok (numericShape (if b then 1 else 0))
  | .pstr str =>
    match pyFloatOfString str with
    | some q => .ok (numericShape q)
    | none =>
      match colonMatch str.data with
      | some (hOpt, mv, sv) =>
        .ok (normalizeTs (hOpt.getD 0 : ℕ) (mv : ℕ) (sv : ℕ))
      | none =>
        match letterMatch str.data with
        | (hOpt, mOpt, sOpt) =>
          .ok (normalizeTs (hOpt.getD 0 : ℕ) (mOpt.getD 0 : ℕ) (sOpt.getD 0 : ℕ))
  | _ => .error (.typeError "float argument must be a string or a real number")

/- What load_config actually stores in the end field of a section: the
   object is created with end=-1 (an int, in spite of the Timestamp | None
   annotation), and a parsed Timestamp replaces it only when the sub-mapping
   has an end key. -/
inductive EndVal where
  | tstamp (t : Timestamp)
  | intSentinel (n : ℤ)
deriving DecidableEq, Repr

structure SectionCfg where
  name : String
  start : Timestamp
  endv : EndVal
deriving DecidableEq, Repr

def lookupKey (entries : List (String × PyVal)) (k : String) : Option PyVal :=
  (entries.find? (fun e => e.1 == k)).map (fun e => e.2)

/- isinstance(v, (float, int)); a Python bool is a subclass of int, so a
   bool value satisfies this test. -/
def isinstance_float_or_int : PyVal → Bool
  | .pfloat _ => true
  | .pint _ => true
  | .pbool _ => true
  | _ => false

/- One iteration of the load_config loop: the section starts as
   Section(name=k, start=prev_start, end=-1).  A dict value may overwrite
   start and end with parsed timestamps.  A bare number takes the branch
   section_cfg[end] = v, which is item assignment on a dataclass instance
   and raises TypeError before anything is stored.  Any other value raises
   ValueError (Invalid section config). -/
def buildSection (prev_start : Timestamp) (k : String) (v : PyVal) :
    Except PyErr SectionCfg :=
  match v with
  | .pdict d => do
    let st ←
      match lookupKey d "start" with
      | some sv => parse_time sv
      | none => pure prev_start
    let ev ←
      match lookupKey d "end" with
      | some evv => EndVal.tstamp <$> parse_time evv
      | none => pure (EndVal.intSentinel (-1))
    return ⟨k, st, ev⟩
  | _ =>
    if isinstance_float_or_int v then
      .error (.typeError "Section object does not support item assignment")
    else
      .error (.valueError "Invalid section config")

/- The loop of load_config.  prev_start is initialized to (0, 0, 0) before
   the loop and is never reassigned anywhere in the loop body, so the same
   value is passed to every iteration. -/
def loadLoop (prev_start : Timestamp) :
    List (String × PyVal) → Except PyErr (List SectionCfg)
  | [] => .ok []
  | (k, v) :: rest => do
    let sec ← buildSection prev_start k v
    let others ← loadLoop prev_start rest
    return sec :: others

def load_config (cfg : List (String × PyVal)) : Except PyErr (List SectionCfg) :=
  loadLoop ⟨0, 0, 0⟩ cfg

def SectionCfg.start_seconds (sec : SectionCfg) : ℚ :=
  sec.start.h * 3600 + sec.start.m * 60 + sec.start.s

/- The duration property evaluated on a section built by load_config: the
   end field is a Timestamp or the int -1, never None, so the None test of
   the property fails and the subscript self.end[0] runs; on the int -1 it
   raises TypeError. -/
def SectionCfg.duration (sec : SectionCfg) : Except PyErr ℚ :=
  match sec.endv with
  | .tstamp e => .ok (e.h * 3600 + e.m * 60 + e.s - sec.start_seconds)
  | .intSentinel _ => .error (.typeError "int object is not subscriptable")

inductive Arg where
  | lit (s : String)
  | num (q : ℚ)
deriving DecidableEq, Repr

/- The ffmpeg command line built by extract_section.  The duration flag is
   added whenever section.end is not None; for every section coming out of
   load_config the end field is a Timestamp or the int -1, never None, so
   the flag is always attempted and section.duration is always evaluated. -/
def extract_args (input suffix outDir : String) (sec : SectionCfg) :
    Except PyErr (List Arg) := do
  let d ← sec.duration
  return [Arg.lit "ffmpeg", Arg.lit "-i", Arg.lit input, Arg.lit "-c",
      Arg.lit "copy", Arg.lit "-ss", Arg.num sec.start_seconds] ++
    [Arg.lit "-t", Arg.num d] ++
    [Arg.lit (outDir ++ "/" ++ sec.name ++ suffix)]

/- General facts about carry normalization, shared by the claim theorems. -/

theorem normalizeTs_spec (h m s : ℚ) (hm0 : 0 ≤ m) (hs0 : 0 ≤ s) :
    (0 ≤ (normalizeTs h m s).m ∧ (normalizeTs h m s).m < 60) ∧
    (0 ≤ (normalizeTs h m s).s ∧ (normalizeTs h m s).s < 60) ∧
    (normalizeTs h m s).h * 3600 + (normalizeTs h m s).m * 60 + (normalizeTs h m s).s
      = h * 3600 + m * 60 + s := by
  have e1 := pyMod_add_floorDiv s 60
  have e2 := pyMod_add_floorDiv (m + pyFloorDiv s 60) 60
  have e3 := pyMod_add_floorDiv m 60
  by_cases hs : s ≥ 60
  · by_cases hm1 : m + pyFloorDiv s 60 ≥ 60
    · simp only [normalizeTs, hs, hm1, if_true]
      refine ⟨⟨pyMod_nonneg _ _ (by norm_num), pyMod_lt _ _ (by norm_num)⟩,
        ⟨pyMod_nonneg _ _ (by norm_num), pyMod_lt _ _ (by norm_num)⟩, ?_⟩
      linarith [e1, e2]
    · simp only [normalizeTs, hs, hm1, if_true, if_false]
      have hfd : 0 ≤ pyFloorDiv s 60 := pyFloorDiv_nonneg _ _ hs0 (by norm_num)
      refine ⟨⟨by linarith, lt_of_not_ge hm1⟩,
        ⟨pyMod_nonneg _ _ (by norm_num), pyMod_lt _ _ (by norm_num)⟩, ?_⟩
      linarith [e1]
  · have hs60 : s < 60 := lt_of_not_ge hs
    by_cases hm1 : m ≥ 60
    · simp only [normalizeTs, hs, hm1, if_true, if_false]
      refine ⟨⟨pyMod_nonneg _ _ (by norm_num), pyMod_lt _ _ (by norm_num)⟩,
        ⟨hs0, hs60⟩, ?_⟩
      linarith [e3]
    · simp only [normalizeTs, hs, hm1, if_false]
      exact ⟨⟨hm0, lt_of_not_ge hm1⟩, ⟨hs0, hs60⟩, by ring_nf⟩

/- Concrete evaluations of parse_time shared by several theorems below. -/

theorem pyFloatOfString_90 : pyFloatOfString "90" = some 90 := by
  have h1 : stripChars "90".data = ['9', '0'] := by decide
  have h2 : parseFloatLit ['9', '0'] = some ⟨false, ['9', '0'], [], false, []⟩ := by
    decide
  rw [pyFloatOfString, h1, h2]
  simp [floatLitVal, natOfDigits]

theorem parse_time_eval_1_02_03 : parse_time (.pstr "1:02:03") = .ok ⟨1, 2, 3⟩ := by
  have hf : pyFloatOfString "1:02:03" = none := by decide
  have hc : colonMatch "1:02:03".data = some (some 1, 2, 3) := by decide
  simp [parse_time, hf, hc]
  norm_num [normalizeTs, pyMod, pyFloorDiv, ratFloor_eq_floor]

theorem parse_time_eval_1_00_00 : parse_time (.pstr "1:00:00") = .ok ⟨1, 0, 0⟩ := by
  have hf : pyFloatOfString "1:00:00" = none := by decide
  have hc : colonMatch "1:00:00".data = some (some 1, 0, 0) := by decide
  simp [parse_time, hf, hc]
  norm_num [normalizeTs, pyMod, pyFloorDiv, ratFloor_eq_floor]

theorem parse_time_eval_2_00_00 : parse_time (.pstr "2:00:00") = .ok ⟨2, 0, 0⟩ := by
  have hf : pyFloatOfString "2:00:00" = none := by decide
  have hc : colonMatch "2:00:00".data = some (some 2, 0, 0) := by decide
  simp [parse_time, hf, hc]
  norm_num [normalizeTs, pyMod, pyFloorDiv, ratFloor_eq_floor]

/-- C1: the claim says load_config cascades the previous end into the next
start, so that for the document with A ending at 1:00:00 and B ending at
2:00:00 section B starts at Timestamp(1,0,0).  The code initializes
prev_start to (0,0,0) and never reassigns it, so B starts at
Timestamp(0,0,0): the cascade does not happen. -/
theorem load_config_cascade_dead :
    load_config [("A", .pdict [("end", .pstr "1:00:00")]),
                 ("B", .pdict [("end", .pstr "2:00:00")])] =
      .ok [⟨"A", ⟨0, 0, 0⟩, .tstamp ⟨1, 0, 0⟩⟩,
           ⟨"B", ⟨0, 0, 0⟩, .tstamp ⟨2, 0, 0⟩⟩] := by
  simp [load_config, loadLoop, buildSection, lookupKey,
    parse_time_eval_1_00_00, parse_time_eval_2_00_00,
    Bind.bind, Except.bind, Pure.pure, Except.pure]

/-- C2: the claim says a string matching none of the three shapes makes
parse_time fail with InvalidTimeFormat rather than return Timestamp(0,0,0).
In the code the letter regex has all three groups optional, so it matches
every string and the assert never fires: parse_time returns the zero
timestamp on unrecognized input. -/
theorem parse_time_unrecognized_returns_zero :
    parse_time (.pstr "not a time") = .ok ⟨0, 0, 0⟩ ∧
    parse_time (.pstr "") = .ok ⟨0, 0, 0⟩ := by
  constructor
  · have hf : pyFloatOfString "not a time" = none := by decide
    have hc : colonMatch "not a time".data = none := by decide
    have hl : letterMatch "not a time".data = (none, none, none) := by decide
    simp [parse_time, hf, hc, hl]
    norm_num [normalizeTs, pyMod, pyFloorDiv, ratFloor_eq_floor]
  · have hf : pyFloatOfString "" = none := by decide
    have hc : colonMatch "".data = none := by decide
    have hl : letterMatch "".data = (none, none, none) := by decide
    simp [parse_time, hf, hc, hl]
    norm_num [normalizeTs, pyMod, pyFloorDiv, ratFloor_eq_floor]

/-- C3: the claim says the document with the single bare-number value 5
yields one Section named A with start Timestamp(0,0,0) and end
Timestamp(0,5,0).  The bare-number branch of the code executes
section_cfg[end] = v, item assignment on a dataclass instance, which
raises TypeError: load_config crashes on every bare-number value. -/
theorem load_config_bare_number_type_error :
    load_config [("A", .pint 5)] =
      .error (.typeError "Section object does not support item assignment") := by
  simp [load_config, loadLoop, buildSection, isinstance_float_or_int,
    Bind.bind, Except.bind, Pure.pure, Except.pure]

/-- C4: the claim says a sub-mapping without an end key yields a Section
whose end is absent, with an absent duration and no duration argument in
the extraction invocation.  The code creates the section with end=-1 and
never replaces it, so end is the int -1, not None: the is-not-None test in
extract_section succeeds, the duration flag is attempted, and computing
section.duration subscripts the int -1 and raises TypeError. -/
theorem load_config_missing_end_sentinel :
    load_config [("A", .pdict [("start", .pstr "1:02:03")])] =
      .ok [⟨"A", ⟨1, 2, 3⟩, .intSentinel (-1)⟩] ∧
    extract_args "video.mp4" ".mp4" "out" ⟨"A", ⟨1, 2, 3⟩, .intSentinel (-1)⟩ =
      .error (.typeError "int object is not subscriptable") := by
  constructor
  · simp [load_config, loadLoop, buildSection, lookupKey, parse_time_eval_1_02_03,
      Bind.bind, Except.bind, Pure.pure, Except.pure]
  · simp [extract_args, SectionCfg.duration,
      Bind.bind, Except.bind, Pure.pure, Except.pure]

/-- C5: the claim says hours are optional in the colon shape, so that
parse_time("02:03") = Timestamp(0,2,3).  In the code only the hours DIGITS
are optional; the colon after them is mandatory, so the colon pattern
needs two colons and "02:03" does not match it.  It falls through to the
letter pattern, which matches it emptily: the result is Timestamp(0,0,0),
not Timestamp(0,2,3).  The three-field form "1:02:03" works as claimed. -/
theorem parse_time_colon_two_colons_required :
    parse_time (.pstr "1:02:03") = .ok ⟨1, 2, 3⟩ ∧
    parse_time (.pstr "02:03") = .ok ⟨0, 0, 0⟩ := by
  refine ⟨parse_time_eval_1_02_03, ?_⟩
  have hf : pyFloatOfString "02:03" = none := by decide
  have hc : colonMatch "02:03".data = none := by decide
  have hl : letterMatch "02:03".data = (none, none, none) := by decide
  simp [parse_time, hf, hc, hl]
  norm_num [normalizeTs, pyMod, pyFloorDiv, ratFloor_eq_floor]

/-- C6: the claim says the colon shape accepts a fractional seconds
component, parsing "1:02:03.5" with seconds 3.5.  The seconds group of the
colon regex is digits only, and re.match tolerates the unmatched tail, so
the code parses "1:02:03.5" with seconds 3 and drops the ".5".  (The
letter shape is integer-only as the claim says: in "1m30.5s" the seconds
group does not match and the fraction is dropped there too.) -/
theorem parse_time_colon_seconds_digits_only :
    parse_time (.pstr "1:02:03.5") = .ok ⟨1, 2, 3⟩ ∧
    parse_time (.pstr "1m30.5s") = .ok ⟨0, 1, 0⟩ := by
  constructor
  · have hf : pyFloatOfString "1:02:03.5" = none := by decide
    have hc : colonMatch "1:02:03.5".data = some (some 1, 2, 3) := by decide
    simp [parse_time, hf, hc]
    norm_num [normalizeTs, pyMod, pyFloorDiv, ratFloor_eq_floor]
  · have hf : pyFloatOfString "1m30.5s" = none := by decide
    have hc : colonMatch "1m30.5s".data = none := by decide
    have hl : letterMatch "1m30.5s".data = (none, some 1, none) := by decide
    simp [parse_time, hf, hc, hl]
    norm_num [normalizeTs, pyMod, pyFloorDiv, ratFloor_eq_floor]

/-- C7: numeric-coercion precedence.  parse_time("90") and parse_time(90.0)
both give Timestamp(1,30,0), and any string float() can coerce is
interpreted as shape 1 (a count of minutes), never against the colon or
letter shapes: on such input parse_time returns exactly the shape-1
decomposition of the coerced number. -/
theorem parse_time_numeric_precedence :
    parse_time (.pstr "90") = .ok ⟨1, 30, 0⟩ ∧
    parse_time (.pfloat 90) = .ok ⟨1, 30, 0⟩ ∧
    ∀ (s : String) (q : ℚ), pyFloatOfString s = some q →
      parse_time (.pstr s) = .ok (numericShape q) := by
  refine ⟨?_, ?_, ?_⟩
  · simp [parse_time, pyFloatOfString_90]
    norm_num [numericShape, pyMod, pyFloorDiv, ratFloor_eq_floor]
  · simp [parse_time]
    norm_num [numericShape, pyMod, pyFloorDiv, ratFloor_eq_floor]
  · intro s q hq
    simp [parse_time, hq]

/-- C7 witness: the precedence rule applied at the concrete input "90",
whose coercion is the number 90. -/
theorem parse_time_numeric_precedence_witness :
    pyFloatOfString "90" = some 90 ∧
    parse_time (.pstr "90") = .ok (numericShape 90) :=
  ⟨pyFloatOfString_90,
    parse_time_numeric_precedence.2.2 "90" 90 pyFloatOfString_90⟩

/-- C8: carry normalization.  For every raw component triple of naturals
with seconds at least 60 or minutes at least 60 (the raw components of the
colon and letter shapes are digit runs, hence naturals), the normalized
result has minutes and seconds in [0, 60) and preserves total seconds;
in particular parse_time("90s") = Timestamp(0,1,30). -/
theorem parse_time_carry_normalization :
    (∀ h m s : ℕ, 60 ≤ s ∨ 60 ≤ m →
      (0 ≤ (normalizeTs h m s).m ∧ (normalizeTs h m s).m < 60) ∧
      (0 ≤ (normalizeTs h m s).s ∧ (normalizeTs h m s).s < 60) ∧
      (normalizeTs h m s).h * 3600 + (normalizeTs h m s).m * 60 + (normalizeTs h m s).s
        = (h : ℚ) * 3600 + (m : ℚ) * 60 + (s : ℚ)) ∧
    parse_time (.pstr "90s") = .ok ⟨0, 1, 30⟩ := by
  constructor
  · intro h m s _
    exact normalizeTs_spec h m s (by positivity) (by positivity)
  · have hf : pyFloatOfString "90s" = none := by decide
    have hc : colonMatch "90s".data = none := by decide
    have hl : letterMatch "90s".data = (none, none, some 90) := by decide
    simp [parse_time, hf, hc, hl]
    norm_num [normalizeTs, pyMod, pyFloorDiv, ratFloor_eq_floor]

/-- C8 witness: normalization applied at the concrete raw triple
(0, 0, 90), the raw components of "90s". -/
theorem parse_time_carry_normalization_witness :
    (60 ≤ (90 : ℕ) ∨ 60 ≤ (0 : ℕ)) ∧
    ((0 ≤ (normalizeTs ((0 : ℕ) : ℚ) ((0 : ℕ) : ℚ) ((90 : ℕ) : ℚ)).m ∧
        (normalizeTs ((0 : ℕ) : ℚ) ((0 : ℕ) : ℚ) ((90 : ℕ) : ℚ)).m < 60) ∧
      (0 ≤ (normalizeTs ((0 : ℕ) : ℚ) ((0 : ℕ) : ℚ) ((90 : ℕ) : ℚ)).s ∧
        (normalizeTs ((0 : ℕ) : ℚ) ((0 : ℕ) : ℚ) ((90 : ℕ) : ℚ)).s < 60) ∧
      (normalizeTs ((0 : ℕ) : ℚ) ((0 : ℕ) : ℚ) ((90 : ℕ) : ℚ)).h * 3600 +
          (normalizeTs ((0 : ℕ) : ℚ) ((0 : ℕ) : ℚ) ((90 : ℕ) : ℚ)).m * 60 +
          (normalizeTs ((0 : ℕ) : ℚ) ((0 : ℕ) : ℚ) ((90 : ℕ) : ℚ)).s
        = ((0 : ℕ) : ℚ) * 3600 + ((0 : ℕ) : ℚ) * 60 + ((90 : ℕ) : ℚ)) :=
  ⟨Or.inl (by norm_num),
    parse_time_carry_normalization.1 0 0 90 (Or.inl (by norm_num))⟩

/-- C9: for every Section, duration is absent exactly when end is absent,
and otherwise equals the total seconds of end minus the total seconds of
start, with no validation: an end before the start gives a negative
duration rather than an error. -/
theorem Section_duration_spec (sec : Section) :
    (sec.duration = none ↔ sec.endv = none) ∧
    ∀ e : Timestamp, sec.endv = some e →
      sec.duration = some ((e.h * 3600 + e.m * 60 + e.s) -
        (sec.start.h * 3600 + sec.start.m * 60 + sec.start.s)) := by
  constructor
  · cases hsec : sec.endv <;> simp [Section.duration, hsec]
  · intro e he
    simp [Section.duration, he, Section.start_seconds]

/-- C9 witness: a misconfigured section starting at 1:00:00 and ending at
0:00:00 has duration -3600 seconds, not an error. -/
theorem Section_duration_spec_witness :
    (Section.mk "late" ⟨1, 0, 0⟩ (some ⟨0, 0, 0⟩)).duration = some (-3600) := by
  have h := (Section_duration_spec ⟨"late", ⟨1, 0, 0⟩, some ⟨0, 0, 0⟩⟩).2 ⟨0, 0, 0⟩ rfl
  rw [h]
  norm_num

/-- C10: a boolean document value passes isinstance(v, (float, int))
because bool is a subclass of int, so load_config takes the bare-number
branch for it: it raises the same TypeError as any bare number, not the
ValueError (Invalid section config) reserved for values that are neither a
sub-mapping nor a number. -/
theorem load_config_bool_bare_number (b : Bool) (prev : Timestamp) (name : String) :
    isinstance_float_or_int (.pbool b) = true ∧
    buildSection prev name (.pbool b) =
      .error (.typeError "Section object does not support item assignment") ∧
    load_config [(name, .pbool b)] =
      .error (.typeError "Section object does not support item assignment") := by
  refine ⟨rfl, ?_, ?_⟩ <;>
    simp [load_config, loadLoop, buildSection, isinstance_float_or_int,
      Bind.bind, Except.bind, Pure.pure, Except.pure]

/-- C10 witness: the boolean classification applied at the concrete value
True in a one-section document. -/
theorem load_config_bool_bare_number_witness :
    isinstance_float_or_int (.pbool true) = true ∧
    buildSection ⟨0, 0, 0⟩ "A" (.pbool true) =
      .error (.typeError "Section object does not support item assignment") ∧
    load_config [("A", .pbool true)] =
      .error (.typeError "Section object does not support item assignment") :=
  load_config_bool_bare_number true ⟨0, 0, 0⟩ "A"

end VideoSplitter
